import Mathlib

/-!
Verification of the spheraform ingestion and caching engine against its
specification.

Each section is a shallow embedding of one component of the source tree:

* `Spheraform.Http`      — `ArcGISAdapter._request` and its tenacity retry
  decorator (packages/core/spheraform_core/adapters/arcgis.py).
* `Spheraform.Change`    — `ArcGISAdapter.check_changed` and
  `_parse_edit_date` (arcgis.py).
* `Spheraform.Parallel`  — the OID-range split of
  `ArcGISAdapter.download_parallel` (arcgis.py).
* `Spheraform.Paged`     — the streaming loop of
  `ArcGISAdapter.download_paged` (arcgis.py).
* `Spheraform.Parquet`   — `geojson_to_geoparquet` and
  `_add_geoparquet_metadata` (packages/core/spheraform_core/storage/geoparquet.py).
* `Spheraform.Crawl`     — the dataset upsert loop and error handling of
  `CrawlWorker._process_job` (packages/api/spheraform_api/workers/crawl_worker.py).
* `Spheraform.Pipeline`  — `DownloadService.download_and_cache`, the storage
  backends and the celery task wrapper
  (packages/api/spheraform_api/services/download.py,
  packages/core/spheraform_core/storage/backend.py,
  packages/api/spheraform_api/tasks/download.py).

Effectful Python is modelled by explicit state passing; machine details that
the verified properties do not touch (byte-level JSON text, SQL strings,
actual feature payloads) are abstracted to the data the control flow
inspects, never further.
-/

namespace Spheraform

/-! ### HTTP request layer

`ArcGISAdapter._request` (arcgis.py lines 91-154).  The decorator is

  `@retry(stop=stop_after_attempt(5), wait=wait_exponential(min=1, max=10), reraise=True)`

with NO `retry=` predicate, so tenacity uses its default predicate and
retries after ANY exception raised by the body — including the plain
`Exception` the body itself raises for a 4xx status.  The body converts
every failure into a raised exception; it distinguishes the failure kinds
only in the message text and in logging. -/

namespace Http

/-- Outcome of one underlying `client.get` attempt, as the body of
`_request` classifies it: a decoded JSON payload (abstracted to `Nat`), an
HTTP error status raised by `raise_for_status`, or one of the `httpx`
exception classes handled by the `except` clauses. -/
inductive AttemptOutcome where
  | success (payload : Nat)
  | httpStatus (code : Nat)
  | timeout
  | networkError
  | protocolError
  | badJson
deriving DecidableEq, Repr

/-- Error value carried by the exception that one execution of the body of
`_request` raises (arcgis.py lines 126-154).  A 4xx status other than 429
becomes `clientError` (raised as a plain `Exception`); 5xx and 429 re-raise
the `httpx.HTTPStatusError` (`retryableStatus`); the remaining clauses wrap
their cause in a plain `Exception`. -/
inductive ReqError where
  | clientError (code : Nat)
  | retryableStatus (code : Nat)
  | timeoutError
  | networkFailure
  | protocolFailure
  | jsonDecodeError
deriving DecidableEq, Repr

/-- One execution of the body of `_request`: success returns the parsed
payload, every failure raises (arcgis.py lines 110-154). -/
def requestOnce : AttemptOutcome → Except ReqError Nat
  | .success p => .ok p
  | .httpStatus c =>
      if 400 ≤ c ∧ c < 500 ∧ c ≠ 429 then .error (.clientError c)
      else .error (.retryableStatus c)
  | .timeout => .error .timeoutError
  | .networkError => .error .networkFailure
  | .protocolError => .error .protocolFailure
  | .badJson => .error .jsonDecodeError

/-- The tenacity retry loop around the body: `script` gives the outcome of
each successive attempt, `budget` is the remaining attempt budget
(`stop_after_attempt(5)` makes the initial budget 5).  Tenacity's default
retry predicate is `retry_if_exception_type(Exception)`, so the loop starts
another attempt after ANY exception while budget remains, and with
`reraise=True` re-raises the last exception once the budget is exhausted.
The second component counts the attempts actually performed. -/
def retryLoop : List AttemptOutcome → Nat → Except ReqError Nat × Nat
  | [], _ => (.error .networkFailure, 0)
  | a :: rest, budget =>
      match requestOnce a with
      | .ok p => (.ok p, 1)
      | .error e =>
          if budget ≤ 1 then (.error e, 1)
          else
            let r := retryLoop rest (budget - 1)
            (r.1, r.2 + 1)

/-- The deployed `_request`: the body under `stop_after_attempt(5)`. -/
def arcgisRequest (script : List AttemptOutcome) : Except ReqError Nat × Nat :=
  retryLoop script 5

end Http

/-! ### Change detection

`ArcGISAdapter.check_changed` (arcgis.py lines 415-479) and
`_parse_edit_date` (lines 400-413).  Upstream timestamps are
milliseconds-since-epoch integers; `datetime.fromtimestamp(ms / 1000)` is
strictly monotone in `ms`, so comparisons are carried out on the raw
milliseconds. -/

namespace Change

/-- Timestamp in milliseconds since the epoch. -/
abbrev TimeMs := Int

/-- The `editingInfo` object of an ArcGIS layer-info document. -/
structure EditingInfo where
  lastEditDate : Option TimeMs
deriving DecidableEq, Repr

/-- The parts of an ArcGIS layer-info document that `check_changed` reads. -/
structure LayerInfo where
  editingInfo : Option EditingInfo
deriving DecidableEq, Repr

/-- Model of `_parse_edit_date`: reads `editingInfo.lastEditDate`; `if last_edit:` is
Python truthiness, so a missing key AND a zero timestamp both yield `None`
(arcgis.py lines 400-413). -/
def parseEditDate (layer : LayerInfo) : Option TimeMs :=
  match layer.editingInfo with
  | some info =>
      match info.lastEditDate with
      | some ms => if ms ≠ 0 then some ms else none
      | none => none
  | none => none

/-- Result classification of a change check (adapters/base.py lines 11-16). -/
inductive ChangeCheckResult where
  | changed
  | unchanged
  | inconclusive
deriving DecidableEq, Repr

/-- The fields of `ChangeCheckInfo` that `check_changed` populates
(adapters/base.py lines 71-81; `details` and `response_time_ms` are not part
of any verified property and are omitted). -/
structure ChangeCheckInfo where
  result : ChangeCheckResult
  method : String
  changed : Bool
  conclusive : Bool
  error : Option String := none
deriving DecidableEq, Repr

/-- Model of `check_changed` (arcgis.py lines 415-479).  `request` is the outcome of
the layer-info fetch; any exception is caught and converted into an
inconclusive result carrying the error string.  Note the Python guard order:
`if source_updated_at and current_edit_date` (both present, decisive
comparison `current > cached`), then `if current_edit_date` (changed), else
inconclusive.  `datetime` objects are always truthy, so truthiness equals
presence here. -/
def checkChanged (request : Except String LayerInfo)
    (sourceUpdatedAt : Option TimeMs) : ChangeCheckInfo :=
  match request with
  | .error e =>
      { result := .inconclusive, method := "arcgis_edit_date",
        changed := false, conclusive := false, error := some e }
  | .ok layerInfo =>
      match sourceUpdatedAt, parseEditDate layerInfo with
      | some cached, some current =>
          let ch : Bool := decide (cached < current)
          { result := if ch then .changed else .unchanged,
            method := "arcgis_edit_date", changed := ch, conclusive := true }
      | none, some _ =>
          { result := .changed, method := "arcgis_edit_date",
            changed := true, conclusive := true }
      | _, none =>
          { result := .inconclusive, method := "arcgis_edit_date",
            changed := false, conclusive := false }

end Change

/-! ### Parallel download by OID range

`ArcGISAdapter.download_parallel` (arcgis.py lines 807-899).  OIDs are
non-negative upstream identifiers, so the Python `//` (floor division) and
Lean `Nat` division agree on every value that occurs. -/

namespace Parallel

/-- The chunk computation of `download_parallel` (arcgis.py lines 842-853):
`chunk_size = max(1, total_range // num_workers)`; worker `i` receives
`[min_oid + i*chunk_size, min(min_oid + (i+1)*chunk_size - 1, max_oid)]`,
kept only when its lower end does not exceed `max_oid`. -/
def parallelChunks (minOid maxOid numWorkers : Nat) : List (Nat × Nat) :=
  let totalRange := maxOid - minOid + 1
  let chunkSize := max 1 (totalRange / numWorkers)
  (List.range numWorkers).filterMap fun i =>
    let chunkMin := minOid + i * chunkSize
    let chunkMax := min (minOid + (i + 1) * chunkSize - 1) maxOid
    if chunkMin ≤ maxOid then some (chunkMin, chunkMax) else none

/-- Model of `download_parallel` after the OID range lookup (arcgis.py lines
835-877): when no OID range could be obtained it falls back to
`download_paged` (modelled by `pagedFallback`); otherwise it fetches each
chunk with `fetch_by_oid_range` and concatenates the per-chunk feature
lists in chunk order (`asyncio.gather` preserves argument order). -/
def downloadParallel (oidRange : Option (Nat × Nat)) (numWorkers : Nat)
    (fetchRange : Nat → Nat → List Nat) (pagedFallback : List Nat) :
    List Nat :=
  match oidRange with
  | none => pagedFallback
  | some (mn, mx) =>
      ((parallelChunks mn mx numWorkers).map fun c => fetchRange c.1 c.2).flatten

/-- A server whose features are exactly the OIDs: the range query
`where OID >= a AND OID <= b` returns every OID in `[a, b]`. -/
def oidServer (total : Nat) (a b : Nat) : List Nat :=
  ((List.range total).map (· + 1)).filter fun oid => a ≤ oid ∧ oid ≤ b

end Parallel

/-! ### Paged download

`ArcGISAdapter.download_paged` (arcgis.py lines 536-679): count query, the
empty-dataset short cut, and the streaming page loop with its
connection-error handling. -/

namespace Paged

/-- Minimal JSON value tree, enough to state what the download writes to
the output file. -/
inductive Json where
  | str (s : String)
  | num (n : Int)
  | arr (elems : List Json)
  | obj (fields : List (String × Json))

/-- The document `json.dump({"type": "FeatureCollection", "features": [...]})`
produces, with each feature abstracted to its payload (arcgis.py line 578
for the empty case; lines 589-660 stream exactly this document as text:
prefix, comma-separated features, suffix). -/
def featureCollection (features : List Nat) : Json :=
  .obj [("type", .str "FeatureCollection"), ("features", .arr (features.map .num))]

/-- Outcome of one page query `resultOffset=offset, resultRecordCount=pageSize`
as `download_paged` distinguishes it: a feature page, an exception whose
message contains a remote-close marker (the source tests the message for
the substrings `peer closed connection` / `RemoteProtocolError`), or any
other exception. -/
inductive PageFetch where
  | success (features : List Nat)
  | connectionError
  | otherError
deriving DecidableEq, Repr

/-- Loop state of the streaming page loop: `offset`, the current
`page_size`, the features already written to the file, and
`consecutive_connection_errors`. -/
structure LoopState where
  offset : Nat
  pageSize : Nat
  written : List Nat
  consecutiveConnectionErrors : Nat
deriving DecidableEq, Repr

/-- What `download_paged` returns (a `DownloadResult`), with the file
content modelled by `Json`.  On failure the page size and the
connection-error counter at the moment of the abort are recorded so that
theorems can speak about whether halving took place. -/
structure DownloadResult where
  success : Bool
  fileContent : Option Json
  featureCount : Option Nat
  failPageSize : Option Nat := none
  failConsecutiveErrors : Option Nat := none

/-- The page loop of `download_paged` (arcgis.py lines 593-660), fuel-indexed
only to satisfy the termination checker; every theorem supplies enough
fuel.  One iteration: while `offset < total_count`, fetch the page; on
success reset the error counter, stop when the page is empty, otherwise
append the features and advance `offset`; on a remote-close error increment
the counter and EITHER (when `page_size > 100` and the counter has reached
2) halve the page size with floor 100 and retry the same offset, OR
re-raise, which the surrounding `try` turns into a failed result; any other
error re-raises directly. -/
def pagedLoop (fetch : Nat → Nat → PageFetch) (totalCount : Nat) :
    Nat → LoopState → DownloadResult
  | 0, st =>
      { success := false, fileContent := none, featureCount := none,
        failPageSize := some st.pageSize,
        failConsecutiveErrors := some st.consecutiveConnectionErrors }
  | fuel + 1, st =>
      if st.offset < totalCount then
        match fetch st.offset st.pageSize with
        | .success features =>
            if features.isEmpty then
              { success := true,
                fileContent := some (featureCollection st.written),
                featureCount := some st.written.length }
            else
              pagedLoop fetch totalCount fuel
                { offset := st.offset + features.length,
                  pageSize := st.pageSize,
                  written := st.written ++ features,
                  consecutiveConnectionErrors := 0 }
        | .connectionError =>
            let consec := st.consecutiveConnectionErrors + 1
            if st.pageSize > 100 ∧ 2 ≤ consec then
              pagedLoop fetch totalCount fuel
                { st with pageSize := max 100 (st.pageSize / 2),
                          consecutiveConnectionErrors := consec }
            else
              { success := false, fileContent := none, featureCount := none,
                failPageSize := some st.pageSize,
                failConsecutiveErrors := some consec }
        | .otherError =>
            { success := false, fileContent := none, featureCount := none,
              failPageSize := some st.pageSize,
              failConsecutiveErrors := some st.consecutiveConnectionErrors }
      else
        { success := true,
          fileContent := some (featureCollection st.written),
          featureCount := some st.written.length }

/-- Model of `download_paged` (arcgis.py lines 558-679).  `countResult` is the
outcome of the `returnCountOnly` query (an exception there is caught by the
outer `try` and yields a failed result).  `maxRecords` feeds
`page_size = max_records if max_records else 1000`, which under Python
truthiness treats both `None` and `0` as absent.  A zero count writes the
empty `FeatureCollection` via `json.dump` and reports `feature_count=0`. -/
def downloadPaged (countResult : Except Unit Nat)
    (fetch : Nat → Nat → PageFetch) (maxRecords : Option Nat) (fuel : Nat) :
    DownloadResult :=
  match countResult with
  | .error _ =>
      { success := false, fileContent := none, featureCount := none }
  | .ok totalCount =>
      if totalCount = 0 then
        { success := true, fileContent := some (featureCollection []),
          featureCount := some 0 }
      else
        let pageSize := match maxRecords with
          | some m => if m ≠ 0 then m else 1000
          | none => 1000
        pagedLoop fetch totalCount fuel
          { offset := 0, pageSize := pageSize, written := [],
            consecutiveConnectionErrors := 0 }

/-- A JSON document is a syntactically valid empty FeatureCollection when it
is an object whose `type` member is the string `FeatureCollection` and
whose `features` member is the empty array. -/
def IsEmptyFeatureCollection : Json → Prop
  | .obj fields =>
      ("type", Json.str "FeatureCollection") ∈ fields ∧
      ("features", Json.arr []) ∈ fields
  | _ => False

end Paged

/-! ### GeoParquet conversion

`geojson_to_geoparquet` (geoparquet.py lines 25-105), `_batch_iterator`
(193-203), `_write_parquet_streaming` (135-168) and
`_add_geoparquet_metadata` (255-410).  The metadata computation inspects
only each feature's geometry type and bounds, so a geometry is embedded as
those data; coordinates are embedded as integers because the bbox fold uses
only `min`/`max`, never float arithmetic. -/

namespace Parquet

/-- What `_add_geoparquet_metadata` reads off one decoded geometry: its
shapely `geom_type` and its `bounds` (minx, miny, maxx, maxy). -/
structure GeomInfo where
  gtype : String
  minx : Int
  miny : Int
  maxx : Int
  maxy : Int
deriving DecidableEq, Repr

/-- One row of the geometry column; `none` models a null WKB entry, which
the metadata loop skips (`if geom_wkb_bytes:`). -/
abbrev FeatureRec := Option GeomInfo

/-- One step of the bbox fold of `_add_geoparquet_metadata` (geoparquet.py
lines 271-285).  The source initialises the accumulator with
`float(inf)` sentinels; `none` models the untouched sentinel state, so the
fold result is `none` exactly when no non-null geometry was seen. -/
def mergeBounds (acc : Option (Int × Int × Int × Int)) (g : GeomInfo) :
    Option (Int × Int × Int × Int) :=
  match acc with
  | none => some (g.minx, g.miny, g.maxx, g.maxy)
  | some (a, b, c, d) =>
      some (min a g.minx, min b g.miny, max c g.maxx, max d g.maxy)

/-- The bbox computed over a list of geometries, in iteration order. -/
def boundsUnion (gs : List GeomInfo) : Option (Int × Int × Int × Int) :=
  gs.foldl mergeBounds none

/-- The `geometry_types` set accumulated by the metadata loop, modelled as
the insertion-ordered deduplicated list (the source collects a Python `set`
and then sorts it; only the membership content matters to the claims). -/
def observedTypes (gs : List GeomInfo) : List String :=
  gs.foldl (fun acc g => if g.gtype ∈ acc then acc else acc ++ [g.gtype]) []

/-- The per-column object under the `geo` metadata key (geoparquet.py lines
289-397): encoding, observed geometry types, the PROJJSON CRS (abstracted
to its authority/code identifier, which the source fixes to EPSG:4326), and
the computed bbox. -/
structure GeoColumnMeta where
  encoding : String
  geometryTypes : List String
  crsAuthority : String
  crsCode : Nat
  bbox : Option (Int × Int × Int × Int)
deriving DecidableEq, Repr

/-- The `geo` metadata object: version, primary column name, and the column
table (the source always emits exactly the one `geometry` entry). -/
structure GeoMeta where
  version : String
  primaryColumn : String
  columns : List (String × GeoColumnMeta)
deriving DecidableEq, Repr

/-- Model of `_add_geoparquet_metadata` applied to one Arrow table whose geometry
column holds `rows` (geoparquet.py lines 255-410). -/
def addGeoparquetMetadata (rows : List FeatureRec) : GeoMeta :=
  let geoms := rows.filterMap id
  { version := "1.0.0",
    primaryColumn := "geometry",
    columns := [("geometry",
      { encoding := "WKB",
        geometryTypes := observedTypes geoms,
        crsAuthority := "EPSG",
        crsCode := 4326,
        bbox := boundsUnion geoms })] }

/-- The constant `BATCH_SIZE` (geoparquet.py line 19). -/
def BATCH_SIZE : Nat := 10000

/-- The constant `STREAMING_THRESHOLD` (geoparquet.py line 22). -/
def STREAMING_THRESHOLD : Nat := 100000

/-- Model of `_batch_iterator` (geoparquet.py lines 193-203): consecutive batches;
a batch is emitted as soon as it reaches `bs` elements, and the final
incomplete batch is emitted at the end. -/
def chunkList (bs : Nat) : List α → List (List α)
  | [] => []
  | x :: xs => (x :: xs.take (bs - 1)) :: chunkList bs (xs.drop (bs - 1))
termination_by l => l.length
decreasing_by
  simp only [List.length_drop, List.length_cons]
  omega

/-- Model of `_write_parquet_streaming` (geoparquet.py lines 135-168): the writer is
created on the FIRST batch and `_add_geoparquet_metadata` runs on that
batch alone, so the `geo` metadata of the written file describes only the
first batch. -/
def writeParquetStreaming (rows : List FeatureRec) (batchSize : Nat) :
    Option GeoMeta :=
  (chunkList batchSize rows).head?.map addGeoparquetMetadata

/-- Model of `geojson_to_geoparquet` (geoparquet.py lines 25-105), restricted to the
`geo` metadata the written file carries.  An empty collection makes
`next(iter(src))` raise, so no file is produced; above the streaming
threshold the streaming writer runs, otherwise the in-memory writer adds
metadata computed over all rows. -/
def geojsonToGeoparquet (rows : List FeatureRec) : Option GeoMeta :=
  if rows.isEmpty then none
  else if STREAMING_THRESHOLD < rows.length then
    writeParquetStreaming rows BATCH_SIZE
  else
    some (addGeoparquetMetadata rows)

/-- The property claimed of every completed conversion, stated from the
spec's words: the written `geo` metadata names exactly one primary geometry
column with encoding WKB and CRS EPSG:4326, lists the geometry types
observed over ALL features, and records a bounding box computed over ALL
features of the dataset. -/
def MetadataOverAllFeatures (rows : List FeatureRec) : Prop :=
  ∀ meta, geojsonToGeoparquet rows = some meta →
    meta.primaryColumn = "geometry" ∧
    ∃ cm, meta.columns = [("geometry", cm)] ∧
      cm.encoding = "WKB" ∧ cm.crsAuthority = "EPSG" ∧ cm.crsCode = 4326 ∧
      cm.geometryTypes = observedTypes (rows.filterMap id) ∧
      cm.bbox = boundsUnion (rows.filterMap id)

/-- A point-like geometry at the origin, used by concrete instances. -/
def pointGeom : GeomInfo := { gtype := "Point", minx := 0, miny := 0, maxx := 0, maxy := 0 }

/-- A line-like geometry away from the origin, used by concrete instances. -/
def lineGeom : GeomInfo :=
  { gtype := "LineString", minx := 50, miny := 50, maxx := 50, maxy := 50 }

/-- A concrete input above the streaming threshold: 100,000 identical
points followed by one line string lying outside their bbox. -/
def bigInput : List FeatureRec :=
  List.replicate 100000 (some pointGeom) ++ [some lineGeom]

end Parquet

/-! ### Shared catalog enumerations

`JobStatus` (models/job.py) and `HealthStatus` (models/geoserver.py). -/

/-- Job lifecycle states shared by crawl, download and export jobs. -/
inductive JobStatus where
  | pending
  | running
  | completed
  | failed
  | cancelled
deriving DecidableEq, Repr

/-- Server health states. -/
inductive HealthStatus where
  | healthy
  | degraded
  | offline
  | unknown
deriving DecidableEq, Repr

/-! ### Crawl worker

`CrawlWorker._process_job` and `_process_pending_jobs`
(crawl_worker.py lines 61-284).  The discovery loop is abstracted to its
outcome: either the list of `DatasetMetadata` values the adapter yields, in
order, or the exception that aborted the loop.  Dataset rows are keyed by
access URL (the server is fixed, so the `(server_id, access_url)` key
reduces to the URL). -/

namespace Crawl

/-- The fields of a discovered `DatasetMetadata` that the upsert keys on or
copies, beyond the many payload fields updated identically (name stands in
for the whole payload). -/
structure DatasetMeta where
  accessUrl : String
  name : String
  featureCount : Option Nat
deriving DecidableEq, Repr

/-- A Dataset row of the fixed server, as the upsert sees it. -/
structure DatasetRow where
  accessUrl : String
  name : String
  featureCount : Option Nat
deriving DecidableEq, Repr

/-- The row built from a metadata record: both the insert branch
(crawl_worker.py lines 200-218) and the update branch (174-191) copy every
payload field from the metadata. -/
def rowOfMeta (m : DatasetMeta) : DatasetRow :=
  { accessUrl := m.accessUrl, name := m.name, featureCount := m.featureCount }

/-- Update of the FIRST row matching the access URL, as
`db.query(Dataset).filter(...).first()` selects it. -/
def replaceFirst (db : List DatasetRow) (m : DatasetMeta) : List DatasetRow :=
  match db with
  | [] => []
  | r :: rs =>
      if r.accessUrl = m.accessUrl then rowOfMeta m :: rs
      else r :: replaceFirst rs m

/-- The upsert body (crawl_worker.py lines 152-219): look the metadata up by
`(server_id, access_url)`; update the existing row, or add a new one.  The
boolean reports whether a new row was created. -/
def upsertDataset (db : List DatasetRow) (m : DatasetMeta) :
    List DatasetRow × Bool :=
  if m.accessUrl ∈ db.map (fun r => r.accessUrl) then (replaceFirst db m, false)
  else (db ++ [rowOfMeta m], true)

/-- The per-job counters `datasets_new` / `datasets_updated`, initialised to
0 at the start of each `_process_job` run (lines 109-110). -/
structure CrawlCounters where
  datasetsNew : Nat
  datasetsUpdated : Nat
deriving DecidableEq, Repr

/-- One iteration of the discovery loop: upsert, then bump the matching
counter (lines 191 and 219). -/
def crawlStep (acc : List DatasetRow × CrawlCounters) (m : DatasetMeta) :
    List DatasetRow × CrawlCounters :=
  let r := upsertDataset acc.1 m
  (r.1,
   if r.2 then { acc.2 with datasetsNew := acc.2.datasetsNew + 1 }
   else { acc.2 with datasetsUpdated := acc.2.datasetsUpdated + 1 })

/-- The discovery loop over the whole stream of discovered metadata
(crawl_worker.py lines 142-241; progress commits do not change the rows or
counters and are not observable here). -/
def crawlDiscovery (db : List DatasetRow) (metas : List DatasetMeta) :
    List DatasetRow × CrawlCounters :=
  metas.foldl crawlStep (db, { datasetsNew := 0, datasetsUpdated := 0 })

/-- The server fields `_process_job` finalises (lines 254-265). -/
structure ServerRow where
  datasetCount : Nat
  health : HealthStatus
deriving DecidableEq, Repr

/-- The CrawlJob fields the worker writes. -/
structure CrawlJobRow where
  status : JobStatus
  error : Option String
  startedAt : Option Nat
  completedAt : Option Nat
  currentStage : Option String
  datasetsDiscovered : Nat
  datasetsNew : Nat
  datasetsUpdated : Nat
deriving DecidableEq, Repr

/-- The state a crawl run touches: this server's dataset rows, the server
row, the job row. -/
structure WorkerState where
  db : List DatasetRow
  server : ServerRow
  job : CrawlJobRow
deriving DecidableEq, Repr

/-- Model of `CrawlWorker._process_job` (crawl_worker.py lines 88-284).  On success:
run the discovery loop, write the final counters, set
`server.dataset_count` to the number of this server's rows, set health
HEALTHY, mark the job Completed.  On a discovery exception: the inner
handler (lines 281-284) sets the server's health to OFFLINE, commits, and
re-raises; the propagating error message is returned alongside the state. -/
def processJob (st : WorkerState) (discovery : Except String (List DatasetMeta))
    (now : Nat) : WorkerState × Option String :=
  let st := { st with job := { st.job with
    status := .running, startedAt := some now,
    currentStage := some "discovering" } }
  match discovery with
  | .error e =>
      ({ st with server := { st.server with health := .offline } }, some e)
  | .ok metas =>
      let r := crawlDiscovery st.db metas
      let st := { st with db := r.1 }
      let st := { st with
        job := { st.job with
          datasetsDiscovered := r.2.datasetsNew + r.2.datasetsUpdated,
          datasetsNew := r.2.datasetsNew,
          datasetsUpdated := r.2.datasetsUpdated },
        server := { datasetCount := r.1.length, health := .healthy } }
      ({ st with job := { st.job with
          status := .completed, completedAt := some now,
          currentStage := some "complete" } }, none)

/-- Model of `CrawlWorker._process_pending_jobs` for one job (crawl_worker.py lines
70-86): run `_process_job`; when it raises, mark the job Failed with the
error string, a completed time and stage `failed` (the rollback it performs
first discards only uncommitted dataset progress, which is not part of the
claimed fields). -/
def processPendingJob (st : WorkerState)
    (discovery : Except String (List DatasetMeta)) (now : Nat) : WorkerState :=
  match processJob st discovery now with
  | (st2, none) => st2
  | (st2, some e) =>
      { st2 with job := { st2.job with
          status := .failed, error := some e, completedAt := some now,
          currentStage := some "failed" } }

end Crawl

/-! ### Download and caching pipeline

`DownloadService.download_and_cache` (download.py lines 81-308),
`PostGISStorageBackend.store_dataset` / `_store_in_postgis_streaming`
(backend.py lines 74-110 and 293-399), `S3StorageBackend.store_dataset`
(backend.py lines 440-544) and the celery task `download_paged`
(tasks/download.py lines 117-173).  All of these share one SQLAlchemy
session; `Session` models it as a committed database snapshot plus the
session's pending view, where `commit` publishes the pending view.  Every
`self.db.commit()` in the source therefore also publishes whatever earlier
assignments are still pending — that interplay is what the claims probe. -/

namespace Pipeline

/-- The Dataset cache fields (models/dataset.py) that the pipeline writes. -/
structure DatasetRow where
  isCached : Bool := false
  cachedAt : Option Nat := none
  cacheTable : Option String := none
  s3DataKey : Option String := none
  s3TilesKey : Option String := none
  useS3Storage : Bool := false
  storageFormat : Option String := none
  featureCount : Option Nat := none
deriving DecidableEq, Repr

/-- The DownloadJob fields the pipeline writes. -/
structure JobRow where
  status : JobStatus := .pending
  error : Option String := none
  completedAt : Option Nat := none
  currentStage : Option String := none
  totalFeatures : Option Nat := none
  featuresStored : Option Nat := none
deriving DecidableEq, Repr

/-- One committed (or pending) database state: the dataset row, the job
row, and whether the per-dataset `cache_<hex32>` table currently exists. -/
structure Db where
  dataset : DatasetRow
  job : JobRow
  cacheTableExists : Bool
deriving DecidableEq, Repr

/-- A SQLAlchemy session over the database: the committed snapshot and the
session's pending view of it. -/
structure Session where
  committed : Db
  pending : Db
deriving DecidableEq, Repr

/-- The effect of `db.commit()`: publish the pending view. -/
def commit (s : Session) : Session := { s with committed := s.pending }

/-- Apply an attribute assignment in the session (pending only). -/
def updPending (s : Session) (f : Db → Db) : Session :=
  { s with pending := f s.pending }

/-- The external cancellation flip becoming visible: the API has committed
`status = CANCELLED` on the job row in another session, and the worker's
re-query of the row refreshes its view, so both the committed row and the
session's view now read Cancelled. -/
def observeCancel (s : Session) : Session :=
  { committed := { s.committed with
      job := { s.committed.job with status := .cancelled } },
    pending := { s.pending with
      job := { s.pending.job with status := .cancelled } } }

/-- The fixed `cache_{dataset_id.hex}` table name (download.py line 112,
backend.py line 94); the hex id is irrelevant to the claims. -/
def cacheTableName : String := "cache_hex32"

/-- The environment of one pipeline run: the outcome of the adapter
download (feature count, or the error message), the
`_should_use_object_storage` decision, which storage-batch checks observe
the externally committed cancellation, whether the S3 landing upload
succeeds, and the clock. -/
structure PipelineEnv where
  downloadOutcome : Except String Nat
  useObjectStorage : Bool
  cancelAt : Nat → Bool
  s3LandingUploadOk : Bool
  now : Nat

/-- The batch loop of `_store_in_postgis_streaming` (backend.py lines
336-377).  The cancellation check runs whenever `feature_count % 1000 == 0`,
that is before the first feature of each 1000-feature batch; a full batch
is followed by a progress update and commit (`total_features` only when not
yet set, mirroring `if not job.total_features`), the final incomplete batch
is inserted after the loop without another check.  On an observed
cancellation: drop the table, commit, and return the count so far — a
NORMAL return, not an exception.  `fuel` only bounds the recursion; every
use supplies more fuel than batches. -/
def storeBatches (cancelAt : Nat → Bool) :
    Nat → Nat → Nat → Nat → Session → Session × Nat × Bool
  | 0, _, stored, _, s => (s, stored, true)
  | fuel + 1, batchIdx, stored, remaining, s =>
      if remaining = 0 then (s, stored, true)
      else if cancelAt batchIdx then
        let s := observeCancel s
        let s := updPending s (fun db => { db with cacheTableExists := false })
        (commit s, stored, false)
      else
        let b := min 1000 remaining
        let s :=
          if b = 1000 then
            commit (updPending s (fun db => { db with
              job := { db.job with
                totalFeatures := some (db.job.totalFeatures.getD (stored + b)),
                featuresStored := some (stored + b) } }))
          else s
        storeBatches cancelAt fuel (batchIdx + 1) (stored + b) (remaining - b) s

/-- Model of `_store_in_postgis_streaming` (backend.py lines 293-399): drop/create
the cache table, stage `storing` plus commit (which also publishes every
assignment still pending in the session), run the batch loop, and on the
uncancelled path write the final counts, build the index, stage `indexing`
and commit (the two final commits of the source are collapsed into one; no
claim reads between them).  Returns the session, the streamed feature
count, and whether the loop ran to completion. -/
def storeInPostgisStreaming (cancelAt : Nat → Bool) (total : Nat)
    (s : Session) : Session × Nat × Bool :=
  let s := updPending s (fun db => { db with cacheTableExists := true })
  let s := commit (updPending s (fun db => { db with
    job := { db.job with currentStage := some "storing" } }))
  let r := storeBatches cancelAt (total + 1) 0 0 total s
  if r.2.2 then
    (commit (updPending r.1 (fun db => { db with
      job := { db.job with
        totalFeatures := some r.2.1, featuresStored := some r.2.1,
        currentStage := some "indexing" } })), r.2.1, true)
  else
    (r.1, r.2.1, false)

/-- Model of `DownloadService.download_and_cache` (download.py lines 81-308),
with the adapter download abstracted to its outcome.  A failed download or
a zero feature count raises (returned as `.error`); otherwise the service
sets `is_cached` and `cached_at` IMMEDIATELY (lines 183-184, before any
storage), then either runs the object-storage path — whose first job-stage
commit inside `S3StorageBackend.store_dataset` (backend.py lines 465-469)
publishes those assignments, after which a failing landing upload raises —
or the PostGIS path, which stores, assigns `cache_table` and the feature
count (truthiness: only when nonzero), and commits (line 296). -/
def downloadAndCache (env : PipelineEnv) (s : Session) :
    Session × Except String Nat :=
  match env.downloadOutcome with
  | .error e => (s, .error ("Download failed: " ++ e))
  | .ok n =>
      if n = 0 then (s, .error "Download returned 0 features")
      else
        let s := updPending s (fun db => { db with
          dataset := { db.dataset with
            isCached := true, cachedAt := some env.now } })
        if env.useObjectStorage then
          let s := updPending s (fun db => { db with
            dataset := { db.dataset with storageFormat := some "geoparquet" } })
          let s := commit (updPending s (fun db => { db with
            job := { db.job with currentStage := some "uploading" } }))
          if env.s3LandingUploadOk then
            let s := updPending s (fun db => { db with
              dataset := { db.dataset with
                useS3Storage := true,
                s3DataKey := some "datasets/id/data.parquet",
                s3TilesKey := some "datasets/id/tiles.pmtiles",
                featureCount := some n } })
            (commit s, .ok n)
          else
            (s, .error "S3 upload failed")
        else
          let s := updPending s (fun db => { db with
            dataset := { db.dataset with
              storageFormat := some "postgis", useS3Storage := false } })
          let r := storeInPostgisStreaming env.cancelAt n s
          let s := updPending r.1 (fun db => { db with
            dataset := { db.dataset with
              cacheTable := some cacheTableName,
              featureCount :=
                if r.2.1 ≠ 0 then some r.2.1 else db.dataset.featureCount } })
          (commit s, .ok n)

/-- The celery task path `process_download_job` → `download_paged`
(tasks/download.py lines 16-173): mark the job Running, stage
`downloading`, commit, run the service, then mark the job Completed on a
normal return or Failed with the error string on an exception — in BOTH
cases overwriting whatever status the row held, and committing the
session's remaining pending assignments along the way. -/
def downloadPagedTask (env : PipelineEnv) (s : Session) : Session :=
  let s := commit (updPending s (fun db => { db with
    job := { db.job with status := .running, currentStage := some "routing" } }))
  let s := commit (updPending s (fun db => { db with
    job := { db.job with currentStage := some "downloading" } }))
  match downloadAndCache env s with
  | (s, .ok _) =>
      commit (updPending s (fun db => { db with
        job := { db.job with
          status := .completed, completedAt := some env.now,
          currentStage := some "complete" } }))
  | (s, .error e) =>
      commit (updPending s (fun db => { db with
        job := { db.job with
          status := .failed, completedAt := some env.now,
          currentStage := some "failed", error := some e } }))

/-- A fresh uncached dataset with a pending job, nothing committed beyond
the rows themselves. -/
def initialSession : Session :=
  { committed := { dataset := {}, job := {}, cacheTableExists := false },
    pending := { dataset := {}, job := {}, cacheTableExists := false } }

/-- Invariant I2, stated from the spec's words: a Dataset is cached iff at
least one of the cache-table / object-storage data key is set and cached-at
is non-null, and the recorded storage mode agrees with which of those keys
is set. -/
def InvariantI2 (d : DatasetRow) : Prop :=
  (d.isCached = true ↔
    ((d.cacheTable ≠ none ∨ d.s3DataKey ≠ none) ∧ d.cachedAt ≠ none)) ∧
  (d.storageFormat = some "postgis" → d.cacheTable ≠ none) ∧
  (d.storageFormat = some "geoparquet" → d.s3DataKey ≠ none)

/-- The environment of the spec's cancellation scenario (seed test 6): a
2,500-feature download to PostGIS, with the job flipped to Cancelled after
the first 1,000-feature batch commits, so every storage check from the
second batch on observes the cancellation. -/
def cancelEnv : PipelineEnv :=
  { downloadOutcome := .ok 2500, useObjectStorage := false,
    cancelAt := fun k => k != 0, s3LandingUploadOk := true, now := 0 }

/-- The environment of a mid-storage object-storage failure: a
2,500-feature download routed to object storage whose landing upload
fails after the `uploading` stage commit. -/
def s3FailEnv : PipelineEnv :=
  { downloadOutcome := .ok 2500, useObjectStorage := true,
    cancelAt := fun _ => false, s3LandingUploadOk := false, now := 0 }

/-- The committed database after the cancellation scenario runs end to
end through the task wrapper. -/
def cancelFinalDb : Db :=
  (downloadPagedTask cancelEnv initialSession).committed

/-- The committed database after the failed object-storage scenario runs
end to end through the task wrapper. -/
def s3FailFinalDb : Db :=
  (downloadPagedTask s3FailEnv initialSession).committed

end Pipeline

/-! #### Claim theorems for the adapter layers -/

/-- C3.  The claim says a 4xx status other than 429 is never retried and
surfaces immediately as terminal.  Evaluating the embedded `_request` on a
server that answers HTTP 404 on the first attempt and succeeds on the
second shows the opposite: the tenacity decorator (whose default predicate
retries after ANY exception, including the plain `Exception` raised for the
4xx) performs a second attempt and the call SUCCEEDS, so the 404 neither
ends the request nor surfaces.  This contradicts the function's own
docstring, which promises to fail fast on 4xx client errors. -/
theorem c3_client_error_is_retried :
    Http.arcgisRequest [.httpStatus 404, .success 7] = (.ok 7, 2) ∧
    Http.arcgisRequest [.httpStatus 404, .httpStatus 404, .httpStatus 404,
      .httpStatus 404, .httpStatus 404] = (.error (.clientError 404), 5) := by
  constructor <;> rfl

/-- C7.  `check_changed` always returns a `ChangeCheckInfo` (the embedding
is a total function, and the source wraps its whole body in a
`try/except` returning an inconclusive result on any error), and the
three-case rule holds: both timestamps present gives a conclusive
comparison with `changed` iff the upstream date is strictly newer; only the
upstream date present gives `changed`; no upstream date gives
`inconclusive`. -/
theorem c7_check_changed_three_case_rule
    (request : Except String Change.LayerInfo)
    (cached : Option Change.TimeMs) :
    (Change.checkChanged request cached).method = "arcgis_edit_date" ∧
    (∀ e, request = .error e →
      (Change.checkChanged request cached).result = .inconclusive ∧
      (Change.checkChanged request cached).conclusive = false ∧
      (Change.checkChanged request cached).error = some e) ∧
    (∀ layer current c, request = .ok layer →
      Change.parseEditDate layer = some current → cached = some c →
      (Change.checkChanged request cached).conclusive = true ∧
      ((Change.checkChanged request cached).changed = true ↔ c < current) ∧
      ((Change.checkChanged request cached).result = .changed ↔ c < current)) ∧
    (∀ layer current, request = .ok layer →
      Change.parseEditDate layer = some current → cached = none →
      (Change.checkChanged request cached).result = .changed ∧
      (Change.checkChanged request cached).changed = true) ∧
    (∀ layer, request = .ok layer → Change.parseEditDate layer = none →
      (Change.checkChanged request cached).result = .inconclusive ∧
      (Change.checkChanged request cached).conclusive = false) := by
  refine ⟨?_, ?_, ?_, ?_, ?_⟩
  · cases request with
    | error e => rfl
    | ok layer =>
        cases cached <;> cases h : Change.parseEditDate layer <;>
          simp [Change.checkChanged, h]
  · rintro e rfl
    exact ⟨rfl, rfl, rfl⟩
  · rintro layer current c rfl hparse rfl
    simp only [Change.checkChanged, hparse]
    by_cases h : c < current <;> simp [h]
  · rintro layer current rfl hparse rfl
    simp [Change.checkChanged, hparse]
  · rintro layer rfl hparse
    cases cached <;> simp [Change.checkChanged, hparse]

/-- Witness for C7, at the inputs of the spec's seed test 3: upstream
`lastEditDate = 1638360000000` ms against a cached timestamp of
`1609459200000` ms (2021-01-01) yields a conclusive `changed`. -/
theorem c7_check_changed_three_case_rule_witness :
    (Change.checkChanged
        (.ok { editingInfo := some { lastEditDate := some 1638360000000 } })
        (some 1609459200000)).result = .changed := by
  have h := (c7_check_changed_three_case_rule
      (.ok { editingInfo := some { lastEditDate := some 1638360000000 } })
      (some 1609459200000)).2.2.1
      { editingInfo := some { lastEditDate := some 1638360000000 } }
      1638360000000 1609459200000 rfl (by decide) rfl
  exact h.2.2.mpr (by decide)

/-- C4.  The claim says the chunk ranges cover every OID in `[min, max]`.
Evaluating the embedded chunk split at `min = 1`, `max = 10`,
`worker_count = 4` refutes it: floor division gives `chunk_size = 2` and the
four chunks `(1,2) (3,4) (5,6) (7,8)`, so OIDs 9 and 10 fall in no chunk,
and against a server holding exactly the OIDs 1..10 the parallel download
silently returns only the features 1..8. -/
theorem c4_parallel_chunks_drop_tail_oids :
    Parallel.parallelChunks 1 10 4 = [(1, 2), (3, 4), (5, 6), (7, 8)] ∧
    (∀ c ∈ Parallel.parallelChunks 1 10 4, ¬ (c.1 ≤ 9 ∧ 9 ≤ c.2)) ∧
    Parallel.downloadParallel (some (1, 10)) 4 (Parallel.oidServer 10) []
      = [1, 2, 3, 4, 5, 6, 7, 8] := by
  refine ⟨by rfl, by decide, by rfl⟩

/-- C9.  A paged download of a layer whose `returnCountOnly` query reports
0 features succeeds, writes a syntactically valid empty FeatureCollection,
and reports `feature_count = 0`, for every page-fetch behaviour and page
size. -/
theorem c9_empty_layer_writes_valid_empty_collection
    (fetch : Nat → Nat → Paged.PageFetch) (maxRecords : Option Nat)
    (fuel : Nat) :
    (Paged.downloadPaged (.ok 0) fetch maxRecords fuel).success = true ∧
    (Paged.downloadPaged (.ok 0) fetch maxRecords fuel).featureCount = some 0 ∧
    ∃ j, (Paged.downloadPaged (.ok 0) fetch maxRecords fuel).fileContent = some j ∧
      Paged.IsEmptyFeatureCollection j := by
  refine ⟨rfl, rfl, Paged.featureCollection [], rfl, ?_⟩
  simp [Paged.IsEmptyFeatureCollection, Paged.featureCollection]

/-- C6.  The claim says two consecutive remote-close errors halve the page
size (floor 100), retry the same offset, and the download continues.
Evaluating the embedded `download_paged` against a server whose page
queries fail with remote-close errors shows the loop abort at the FIRST
such error: `consecutive_connection_errors` is 1, the guard
`consecutive_connection_errors >= 2` fails, the exception is re-raised and
the download fails with the page size still 1000 — the halving branch can
never be reached, because reaching a second consecutive error would require
having survived the first. -/
theorem c6_first_remote_close_error_aborts_without_halving :
    Paged.downloadPaged (.ok 500) (fun _ _ => .connectionError) none 10 =
      { success := false, fileContent := none, featureCount := none,
        failPageSize := some 1000, failConsecutiveErrors := some 1 } := by
  rfl

/-! #### Claim theorems for the GeoParquet conversion -/

namespace Parquet

theorem filterMap_id_replicate_some (n : Nat) (g : GeomInfo) :
    (List.replicate n (some g : FeatureRec)).filterMap id = List.replicate n g := by
  induction n with
  | zero => rfl
  | succ n ih => simp [List.replicate_succ, ih]

theorem observedTypes_aux_mem (l : List GeomInfo) (acc : List String)
    (hl : ∀ x ∈ l, x.gtype ∈ acc) :
    l.foldl (fun acc g => if g.gtype ∈ acc then acc else acc ++ [g.gtype]) acc
      = acc := by
  induction l generalizing acc with
  | nil => rfl
  | cons x xs ih =>
      have hx : x.gtype ∈ acc := hl x (by simp)
      simp only [List.foldl_cons, if_pos hx]
      exact ih acc (fun y hy => hl y (by simp [hy]))

theorem observedTypes_replicate (n : Nat) (g : GeomInfo) :
    observedTypes (List.replicate (n + 1) g) = [g.gtype] := by
  simp only [observedTypes, List.replicate_succ, List.foldl_cons,
    if_neg (List.not_mem_nil g.gtype), List.nil_append]
  exact observedTypes_aux_mem (List.replicate n g) [g.gtype]
    (fun x hx => by
      have := List.eq_of_mem_replicate hx
      simp [this])

theorem boundsUnion_aux_replicate (n : Nat) (g : GeomInfo) (b : Int × Int × Int × Int)
    (h : mergeBounds (some b) g = some b) :
    (List.replicate n g).foldl mergeBounds (some b) = some b := by
  induction n with
  | zero => rfl
  | succ n ih => simpa [List.replicate_succ, h] using ih

theorem boundsUnion_replicate (n : Nat) (g : GeomInfo) :
    boundsUnion (List.replicate (n + 1) g) =
      some (g.minx, g.miny, g.maxx, g.maxy) := by
  simp only [boundsUnion, List.replicate_succ, List.foldl_cons]
  exact boundsUnion_aux_replicate n g _ (by simp [mergeBounds])

theorem chunkList_cons_take (bs : Nat) (x : α) (xs : List α) :
    chunkList bs (x :: xs)
      = (x :: xs.take (bs - 1)) :: chunkList bs (xs.drop (bs - 1)) := by
  rw [chunkList]

/-- Decomposition of `bigInput` exposing its head element. -/
theorem bigInput_cons :
    bigInput
      = (some pointGeom : FeatureRec) ::
          (List.replicate 99999 (some pointGeom) ++ [some lineGeom]) := by
  simp only [bigInput]
  rw [show (100000 : Nat) = 99999 + 1 from rfl, List.replicate_succ,
    List.cons_append]

/-- The take of one batch from the cons decomposition is the first 10,000
replicated points. -/
theorem bigInput_batch_take :
    (List.replicate 99999 (some pointGeom : FeatureRec)
        ++ [some lineGeom]).take (BATCH_SIZE - 1)
      = List.replicate 9999 (some pointGeom) := by
  rw [show BATCH_SIZE - 1 = 9999 from rfl,
    List.take_append_of_le_length (by rw [List.length_replicate]; omega),
    List.take_replicate, show min 9999 99999 = 9999 from by omega]

/-- First batch of the streaming writer on `bigInput`: the first 10,000
replicated points. -/
theorem bigInput_first_batch :
    (chunkList BATCH_SIZE bigInput).head?
      = some (List.replicate 10000 (some pointGeom)) := by
  rw [bigInput_cons, chunkList_cons_take, List.head?_cons, bigInput_batch_take,
    show (10000 : Nat) = 9999 + 1 from rfl]
  exact congrArg some (List.replicate_succ (some pointGeom) 9999).symm

/-- The `geo` metadata of 10,000 replicated points. -/
theorem metadata_of_replicated_points :
    addGeoparquetMetadata (List.replicate 10000 (some pointGeom))
      = { version := "1.0.0", primaryColumn := "geometry",
          columns := [("geometry",
            { encoding := "WKB", geometryTypes := ["Point"],
              crsAuthority := "EPSG", crsCode := 4326,
              bbox := some (0, 0, 0, 0) })] } := by
  simp only [addGeoparquetMetadata, filterMap_id_replicate_some]
  rw [show (10000 : Nat) = 9999 + 1 from rfl, observedTypes_replicate,
    boundsUnion_replicate]
  rfl

/-- The `geo` metadata the conversion writes for `bigInput`: computed over
the first batch only. -/
theorem bigInput_metadata :
    geojsonToGeoparquet bigInput
      = some
        { version := "1.0.0", primaryColumn := "geometry",
          columns := [("geometry",
            { encoding := "WKB", geometryTypes := ["Point"],
              crsAuthority := "EPSG", crsCode := 4326,
              bbox := some (0, 0, 0, 0) })] } := by
  have hempty : bigInput.isEmpty = false := by
    rw [bigInput_cons]
    rfl
  have hlen : bigInput.length = 100001 := by
    simp only [bigInput, List.length_append, List.length_replicate]
    rfl
  rw [geojsonToGeoparquet, hempty, if_neg (by simp),
    if_pos (by rw [hlen]; decide), writeParquetStreaming, bigInput_first_batch,
    Option.map_some', metadata_of_replicated_points]

/-- The geometry types and bbox over ALL features of `bigInput`, which the
claim says the metadata must record. -/
theorem bigInput_all_features :
    observedTypes (bigInput.filterMap id) = ["Point", "LineString"] ∧
    boundsUnion (bigInput.filterMap id) = some (0, 0, 50, 50) := by
  have hfm : bigInput.filterMap id
      = List.replicate 100000 pointGeom ++ [lineGeom] := by
    rw [bigInput, List.filterMap_append, filterMap_id_replicate_some]
    rfl
  have h1 : (100000 : Nat) = 99999 + 1 := rfl
  constructor
  · rw [hfm, observedTypes, List.foldl_append]
    have hrep : List.foldl
          (fun acc g => if g.gtype ∈ acc then acc else acc ++ [g.gtype]) []
          (List.replicate 100000 pointGeom) = ["Point"] := by
      have hx := observedTypes_replicate 99999 pointGeom
      rw [observedTypes] at hx
      rw [h1, hx]
      rfl
    rw [hrep]
    rfl
  · rw [hfm, boundsUnion, List.foldl_append]
    have hrep : List.foldl mergeBounds none (List.replicate 100000 pointGeom)
        = some ((0 : Int), (0 : Int), (0 : Int), (0 : Int)) := by
      have hx := boundsUnion_replicate 99999 pointGeom
      rw [boundsUnion] at hx
      rw [h1, hx]
      rfl
    rw [hrep]
    rfl

/-- For any nonempty list the written first batch is the take of
`BATCH_SIZE` elements. -/
theorem take_batch_cons (x : α) (xs : List α) :
    (x :: xs).take BATCH_SIZE = x :: xs.take (BATCH_SIZE - 1) := by
  rw [show BATCH_SIZE = 9999 + 1 from rfl, List.take_succ_cons]

end Parquet

/-- Counterexample for C5.  On a dataset of 100,001 features — 100,000
points at the origin followed by one line string at (50, 50) — the
conversion takes the streaming path and the written `geo` metadata records
geometry types `[Point]` and bbox `(0,0,0,0)`: the line string, which lies
outside that bbox and adds a geometry type, is invisible because
`_write_parquet_streaming` attaches metadata computed from the first
10,000-feature batch only.  The claim's bbox-over-all-features and
types-over-all-features therefore fail. -/
theorem c5_streaming_metadata_ignores_later_batches :
    ¬ Parquet.MetadataOverAllFeatures Parquet.bigInput := by
  intro hclaim
  obtain ⟨-, cm, hcols, -, -, -, -, hbbox⟩ :=
    hclaim _ Parquet.bigInput_metadata
  simp only [List.cons.injEq, Prod.mk.injEq, and_true, true_and] at hcols
  rw [← hcols, Parquet.bigInput_all_features.2] at hbbox
  exact absurd hbbox (by decide)

/-- C5, amended.  For every nonempty input the written `geo` metadata names
exactly one primary geometry column (`geometry`) with encoding WKB and CRS
EPSG:4326; its geometry types and bbox are computed over all features when
the dataset is at or below the 100,000-feature streaming threshold, and
over only the FIRST 10,000-feature batch when the dataset is above it. -/
theorem c5_amended_geo_metadata (rows : List Parquet.FeatureRec)
    (h : rows ≠ []) :
    ∃ cm, Parquet.geojsonToGeoparquet rows
        = some { version := "1.0.0", primaryColumn := "geometry",
                 columns := [("geometry", cm)] } ∧
      cm.encoding = "WKB" ∧ cm.crsAuthority = "EPSG" ∧ cm.crsCode = 4326 ∧
      cm.geometryTypes = Parquet.observedTypes
        ((if Parquet.STREAMING_THRESHOLD < rows.length
          then rows.take Parquet.BATCH_SIZE else rows).filterMap id) ∧
      cm.bbox = Parquet.boundsUnion
        ((if Parquet.STREAMING_THRESHOLD < rows.length
          then rows.take Parquet.BATCH_SIZE else rows).filterMap id) := by
  cases rows with
  | nil => exact absurd rfl h
  | cons x xs =>
      rw [Parquet.geojsonToGeoparquet, List.isEmpty_cons, if_neg (by simp)]
      by_cases hlen : Parquet.STREAMING_THRESHOLD < (x :: xs).length
      · simp only [if_pos hlen, Parquet.writeParquetStreaming,
          Parquet.chunkList_cons_take, List.head?_cons, Option.map_some',
          Parquet.take_batch_cons]
        exact ⟨_, rfl, rfl, rfl, rfl, rfl, rfl⟩
      · simp only [if_neg hlen]
        exact ⟨_, rfl, rfl, rfl, rfl, rfl, rfl⟩

/-- Witness for C5's amended theorem at the one-point input. -/
theorem c5_amended_geo_metadata_witness :
    ([some Parquet.pointGeom] : List Parquet.FeatureRec) ≠ [] ∧
    ∃ cm, Parquet.geojsonToGeoparquet [some Parquet.pointGeom]
        = some { version := "1.0.0", primaryColumn := "geometry",
                 columns := [("geometry", cm)] } ∧
      cm.encoding = "WKB" ∧ cm.crsAuthority = "EPSG" ∧ cm.crsCode = 4326 ∧
      cm.geometryTypes = Parquet.observedTypes
        ((if Parquet.STREAMING_THRESHOLD < ([some Parquet.pointGeom] : List Parquet.FeatureRec).length
          then ([some Parquet.pointGeom] : List Parquet.FeatureRec).take Parquet.BATCH_SIZE
          else [some Parquet.pointGeom]).filterMap id) ∧
      cm.bbox = Parquet.boundsUnion
        ((if Parquet.STREAMING_THRESHOLD < ([some Parquet.pointGeom] : List Parquet.FeatureRec).length
          then ([some Parquet.pointGeom] : List Parquet.FeatureRec).take Parquet.BATCH_SIZE
          else [some Parquet.pointGeom]).filterMap id) :=
  ⟨by simp, c5_amended_geo_metadata [some Parquet.pointGeom] (by simp)⟩

/-! #### Claim theorems for the crawl worker -/

namespace Crawl

theorem mem_keys_map_rowOfMeta (metas : List DatasetMeta) (m : DatasetMeta)
    (hm : m ∈ metas) :
    m.accessUrl ∈ (metas.map rowOfMeta).map (fun r => r.accessUrl) := by
  rw [List.map_map]
  exact List.mem_map_of_mem _ hm

theorem crawl_foldl_fresh (metas : List DatasetMeta) (db : List DatasetRow)
    (c : CrawlCounters)
    (hnew : ∀ m ∈ metas, m.accessUrl ∉ db.map (fun r => r.accessUrl))
    (hnodup : (metas.map (fun m => m.accessUrl)).Nodup) :
    metas.foldl crawlStep (db, c)
      = (db ++ metas.map rowOfMeta,
         { c with datasetsNew := c.datasetsNew + metas.length }) := by
  induction metas generalizing db c with
  | nil => simp
  | cons m rest ih =>
      have hm : m.accessUrl ∉ db.map (fun r => r.accessUrl) := hnew m (by simp)
      have hstep : crawlStep (db, c) m
          = (db ++ [rowOfMeta m],
             { c with datasetsNew := c.datasetsNew + 1 }) := by
        simp [crawlStep, upsertDataset, hm]
      have hrestnew : ∀ m2 ∈ rest,
          m2.accessUrl ∉ (db ++ [rowOfMeta m]).map (fun r => r.accessUrl) := by
        intro m2 hm2
        rw [List.map_append, List.mem_append]
        rintro (hin | hin)
        · exact hnew m2 (by simp [hm2]) hin
        · have hne : m2.accessUrl ≠ m.accessUrl := by
            intro he
            have hin2 : m.accessUrl ∈ rest.map (fun m => m.accessUrl) := by
              rw [← he]
              exact List.mem_map_of_mem _ hm2
            exact (List.nodup_cons.mp hnodup).1 hin2
          simp only [List.map_cons, List.map_nil, List.mem_singleton] at hin
          exact hne hin
      have hrestnodup : (rest.map (fun m => m.accessUrl)).Nodup :=
        (List.nodup_cons.mp hnodup).2
      rw [List.foldl_cons, hstep, ih (db ++ [rowOfMeta m]) _ hrestnew hrestnodup]
      refine congrArg₂ Prod.mk ?_ ?_
      · rw [List.append_assoc, List.singleton_append, List.map_cons]
      · simp only [List.length_cons]
        congr 1
        omega

theorem crawl_foldl_replay (metas : List DatasetMeta) (db : List DatasetRow)
    (c : CrawlCounters)
    (hold : ∀ m ∈ metas, m.accessUrl ∈ db.map (fun r => r.accessUrl) ∧
      replaceFirst db m = db) :
    metas.foldl crawlStep (db, c)
      = (db, { c with datasetsUpdated := c.datasetsUpdated + metas.length }) := by
  induction metas generalizing c with
  | nil => simp
  | cons m rest ih =>
      obtain ⟨hmem, hrep⟩ := hold m (by simp)
      have hstep : crawlStep (db, c) m
          = (db, { c with datasetsUpdated := c.datasetsUpdated + 1 }) := by
        simp [crawlStep, upsertDataset, hmem, hrep]
      rw [List.foldl_cons, hstep, ih _ (fun m2 hm2 => hold m2 (by simp [hm2]))]
      refine congrArg₂ Prod.mk rfl ?_
      simp only [List.length_cons]
      congr 1
      omega

theorem replaceFirst_map_rowOfMeta (metas : List DatasetMeta) (m : DatasetMeta)
    (hm : m ∈ metas) (hnodup : (metas.map (fun x => x.accessUrl)).Nodup) :
    replaceFirst (metas.map rowOfMeta) m = metas.map rowOfMeta := by
  induction metas with
  | nil => cases hm
  | cons m0 rest ih =>
      simp only [List.map_cons, replaceFirst]
      by_cases h : (rowOfMeta m0).accessUrl = m.accessUrl
      · rw [if_pos h]
        have heq : m = m0 := by
          rcases List.mem_cons.mp hm with rfl | hmr
          · rfl
          · exfalso
            have hin : m.accessUrl ∈ rest.map (fun x => x.accessUrl) :=
              List.mem_map_of_mem _ hmr
            have hn := (List.nodup_cons.mp hnodup).1
            have hm0 : m0.accessUrl = m.accessUrl := h
            rw [← hm0] at hin
            exact hn hin
        rw [heq]
      · rw [if_neg h]
        have hmr : m ∈ rest := by
          rcases List.mem_cons.mp hm with rfl | hmr
          · exact absurd rfl h
          · exact hmr
        rw [ih hmr (List.nodup_cons.mp hnodup).2]

/-- First crawl of an empty catalog: every discovered layer is inserted,
the job counts them all as new, the server ends healthy with the full
dataset count. -/
theorem firstCrawl_eq (metas : List DatasetMeta)
    (hnodup : (metas.map (fun m => m.accessUrl)).Nodup)
    (server0 : ServerRow) (job0 : CrawlJobRow) (t1 : Nat) :
    processPendingJob { db := [], server := server0, job := job0 }
        (.ok metas) t1
      = { db := metas.map rowOfMeta,
          server := { datasetCount := (metas.map rowOfMeta).length,
                      health := .healthy },
          job := { status := .completed, error := job0.error,
                   startedAt := some t1, completedAt := some t1,
                   currentStage := some "complete",
                   datasetsDiscovered := metas.length,
                   datasetsNew := metas.length, datasetsUpdated := 0 } } := by
  simp only [processPendingJob, processJob, crawlDiscovery]
  rw [crawl_foldl_fresh metas [] _ (by simp) hnodup]
  simp

/-- Replaying the same discovery stream over the catalog the first crawl
left behind: every layer is found by its access URL and updated in place,
no row is added or moved, the counters report zero new. -/
theorem replayCrawl_eq (metas : List DatasetMeta)
    (hnodup : (metas.map (fun m => m.accessUrl)).Nodup)
    (server1 : ServerRow) (job1 : CrawlJobRow) (t2 : Nat) :
    processPendingJob
        { db := metas.map rowOfMeta, server := server1, job := job1 }
        (.ok metas) t2
      = { db := metas.map rowOfMeta,
          server := { datasetCount := (metas.map rowOfMeta).length,
                      health := .healthy },
          job := { status := .completed, error := job1.error,
                   startedAt := some t2, completedAt := some t2,
                   currentStage := some "complete",
                   datasetsDiscovered := metas.length,
                   datasetsNew := 0, datasetsUpdated := metas.length } } := by
  simp only [processPendingJob, processJob, crawlDiscovery]
  rw [crawl_foldl_replay metas (metas.map rowOfMeta) _
    (fun m hm => ⟨mem_keys_map_rowOfMeta metas m hm,
      replaceFirst_map_rowOfMeta metas m hm hnodup⟩)]
  simp

end Crawl

/-- C10.  When the discovery loop of a crawl job raises, the worker's
inner handler sets the owning server's health to Offline (and commits)
before re-raising, and the outer handler then marks the job Failed with
the error string, a completed time and stage `failed` — for every starting
state, error message and clock. -/
theorem c10_crawl_failure_sets_server_offline_and_job_failed
    (st : Crawl.WorkerState) (e : String) (now : Nat) :
    (Crawl.processPendingJob st (.error e) now).server.health = .offline ∧
    (Crawl.processPendingJob st (.error e) now).job.status = .failed ∧
    (Crawl.processPendingJob st (.error e) now).job.error = some e ∧
    (Crawl.processPendingJob st (.error e) now).job.completedAt = some now ∧
    (Crawl.processPendingJob st (.error e) now).job.currentStage
      = some "failed" :=
  ⟨rfl, rfl, rfl, rfl, rfl⟩

/-- C8.  Crawling the same unchanged discovery stream twice: the first run
inserts every layer (`datasets_new = n`, `datasets_updated = 0`); the
second run, keyed by `(server_id, access_url)`, creates no rows
(`datasets_new = 0`, every previously discovered dataset counted as
updated), leaves the dataset rows identical, and leaves the server's
dataset count and Healthy status unchanged. -/
theorem c8_second_crawl_creates_no_datasets (metas : List Crawl.DatasetMeta)
    (hnodup : (metas.map (fun m => m.accessUrl)).Nodup)
    (server0 : Crawl.ServerRow) (job0 : Crawl.CrawlJobRow) (t1 t2 : Nat) :
    let s1 := Crawl.processPendingJob
      { db := [], server := server0, job := job0 } (.ok metas) t1
    let s2 := Crawl.processPendingJob s1 (.ok metas) t2
    s1.job.datasetsNew = metas.length ∧ s1.job.datasetsUpdated = 0 ∧
    s2.job.datasetsNew = 0 ∧ s2.job.datasetsUpdated = metas.length ∧
    s2.db = s1.db ∧
    s2.server.datasetCount = s1.server.datasetCount ∧
    s1.server.health = .healthy ∧ s2.server.health = .healthy ∧
    s1.job.status = .completed ∧ s2.job.status = .completed := by
  simp only [Crawl.firstCrawl_eq metas hnodup server0 job0 t1]
  simp only [Crawl.replayCrawl_eq metas hnodup _ _ t2]
  simp

/-- Witness for C8 at the spec's seed test 4: a server with two layers;
the second crawl reports no new datasets and two updated ones. -/
theorem c8_second_crawl_creates_no_datasets_witness :
    (Crawl.processPendingJob
        (Crawl.processPendingJob
          { db := [], server := { datasetCount := 0, health := .unknown },
            job := { status := .pending, error := none, startedAt := none,
                     completedAt := none, currentStage := none,
                     datasetsDiscovered := 0, datasetsNew := 0,
                     datasetsUpdated := 0 } }
          (.ok [{ accessUrl := "u0", name := "L0", featureCount := some 5 },
                { accessUrl := "u1", name := "L1", featureCount := some 7 }]) 1)
        (.ok [{ accessUrl := "u0", name := "L0", featureCount := some 5 },
              { accessUrl := "u1", name := "L1", featureCount := some 7 }])
        2).job.datasetsNew = 0 := by
  have h := c8_second_crawl_creates_no_datasets
    [{ accessUrl := "u0", name := "L0", featureCount := some 5 },
     { accessUrl := "u1", name := "L1", featureCount := some 7 }]
    (by decide)
    { datasetCount := 0, health := .unknown }
    { status := .pending, error := none, startedAt := none,
      completedAt := none, currentStage := none, datasetsDiscovered := 0,
      datasetsNew := 0, datasetsUpdated := 0 } 1 2
  exact h.2.2.1

/-! #### Claim theorems for the download pipeline -/

/-- C1.  The claim says cancellation observed between storage batches
leaves no cache table, `is_cached = false` and a Cancelled job with null
error.  Evaluating the embedded pipeline on the spec's own scenario —
2,500 features, job flipped to Cancelled after the first 1,000-feature
batch commits — shows: the partial table IS dropped (the only part of the
claim the code honours), but the Dataset row is committed with
`is_cached = true`, `cached_at` set and `cache_table` naming the dropped
table, because `download_and_cache` set the cache flags before storage and
the backend returns normally after its cleanup; and the celery task then
overwrites the job's Cancelled status with Completed.  The committed job
even reports `features_stored = 1000` with `error = null` and stage
`complete`. -/
theorem c1_cancellation_leaves_cached_row_and_completed_job :
    Pipeline.cancelFinalDb.cacheTableExists = false ∧
    Pipeline.cancelFinalDb.dataset.isCached = true ∧
    Pipeline.cancelFinalDb.dataset.cachedAt = some 0 ∧
    Pipeline.cancelFinalDb.dataset.cacheTable = some Pipeline.cacheTableName ∧
    Pipeline.cancelFinalDb.dataset.featureCount = some 1000 ∧
    Pipeline.cancelFinalDb.job.status = .completed ∧
    Pipeline.cancelFinalDb.job.error = none :=
  ⟨rfl, rfl, rfl, rfl, rfl, rfl, rfl⟩

/-- C2.  The claim says invariant I2 holds for every Dataset after any
pipeline operation completes.  Evaluating the embedded pipeline on an
object-storage download whose landing upload fails refutes it: the
service sets `is_cached`/`cached_at` before storage, the backend's
job-stage commit publishes them, the upload failure then aborts the
operation and the task marks the job Failed — leaving a committed Dataset
with `is_cached = true`, `cached_at` set, but BOTH `cache_table` and
`s3_data_key` null and a storage mode claiming `geoparquet`, violating
I2 in both conjuncts. -/
theorem c2_invariant_i2_violated_by_failed_storage :
    Pipeline.s3FailFinalDb.dataset =
      { isCached := true, cachedAt := some 0,
        storageFormat := some "geoparquet" } ∧
    Pipeline.s3FailFinalDb.job.status = .failed ∧
    ¬ Pipeline.InvariantI2 Pipeline.s3FailFinalDb.dataset := by
  refine ⟨rfl, rfl, ?_⟩
  intro h
  have hkeys := h.1.mp rfl
  rcases hkeys.1 with hc | hs
  · exact hc rfl
  · exact hs rfl

end Spheraform
